import Mathlib

/-!
Verification of the Frog repository: a small HTTP façade over a brokerage
trading API, present in three near-duplicate variants
(`main.js`, `unnamed/part_000`, `unnamed/part_001`).

The JavaScript sources are shallowly embedded: numbers are modelled by
exact rationals, remote endpoints by an explicit `Upstream` oracle,
the mutable module-level caches by explicit state values threaded through
the handler functions, and thrown/caught exceptions by `Except`.
-/

namespace Frog

/-- Quotation: the fixed-point units + nano representation used by the
upstream API (`{ units, nano }` objects in the source). -/
structure Quotation where
  units : ℤ
  nano : ℤ
deriving DecidableEq

/-- JavaScript Math.trunc: truncation toward zero. -/
def jsTrunc (q : ℚ) : ℤ := if 0 ≤ q then ⌊q⌋ else ⌈q⌉

/-- quotationToFloat from the source: `quotation.units + (quotation.nano || 0) / 1_000_000_000`.
The `!quotation` guard (absent quotation maps to 0) lives at the call sites that
pass an `Option Quotation`; here the quotation is present. -/
def quotationToFloat (q : Quotation) : ℚ :=
  (q.units : ℚ) + (q.nano : ℚ) / 1000000000

/-- floatToQuotation from the source:
`units = Math.trunc(value); nano = Math.round((value - units) * 1_000_000_000)`.
JavaScript Math.round(x) is ⌊x + 1/2⌋, which is Mathlib `round` (`round_eq`). -/
def floatToQuotation (v : ℚ) : Quotation :=
  { units := jsTrunc v
    nano := round ((v - (jsTrunc v : ℚ)) * 1000000000) }

/-- JavaScript request-body values, as far as the handlers inspect them. -/
inductive JSVal where
  | vNull : JSVal
  | vStr : String → JSVal
  | vNum : ℚ → JSVal
deriving DecidableEq

/-- JavaScript truthiness of a present value (`!x` in the source). -/
def truthy : JSVal → Bool
  | JSVal.vNull => false
  | JSVal.vStr s => decide (s ≠ "")
  | JSVal.vNum q => decide (q ≠ 0)

/-- JavaScript string coercion, restricted to the shapes the handlers receive. -/
def jsToString : JSVal → String
  | JSVal.vNull => "null"
  | JSVal.vStr s => s
  | JSVal.vNum q => toString q

/-- parseInt on a request-body value; `none` models the NaN produced for a
non-numeric value (the claims only exercise numeric quantities). -/
def jsParseInt : JSVal → Option ℤ
  | JSVal.vNum q => some (jsTrunc q)
  | _ => none

/-- parseFloat on a request-body value; `none` models NaN for non-numeric input. -/
def jsParseFloat : JSVal → Option ℚ
  | JSVal.vNum q => some q
  | _ => none

/-- An instrument as returned by the FindInstrument endpoint. -/
structure Instrument where
  ticker : String
  figi : String
  instrumentType : String
deriving DecidableEq

/-- An account as returned by the GetAccounts endpoint. -/
structure Account where
  id : String
  accountType : String
deriving DecidableEq

/-- The fields of a PostOrder response the handlers read. -/
structure OrderResponse where
  orderId : String
  executionReportStatus : String
deriving DecidableEq

/-- The request body sent to the PostOrder endpoint. -/
structure OrderPayload where
  figi : String
  quantity : Option ℤ
  price : Option Quotation
  direction : String
  accountId : String
  orderType : String
  orderId : String
deriving DecidableEq

/-- Oracle for the remote endpoints; `Except.error` models a thrown error
(network failure, non-2xx status or decode failure) carrying its message. -/
structure Upstream where
  findInstrument : String → Except String (List Instrument)
  getOrderBook : String → Except String Quotation
  getLastPrices : String → Except String (List Quotation)
  getAccounts : Except String (List Account)
  postOrder : OrderPayload → Except String OrderResponse

/-- The priceData objects cached and returned by the price endpoints. -/
structure PriceData where
  price : ℚ
  figi : Option String
  ticker : String
  timestamp : ℕ
  isMock : Bool
deriving DecidableEq

/-- The module-level caches of part_000 (figi map, price cache, account id). -/
structure ServerState where
  tickerFigiMap : List (String × String)
  priceCache : List (String × PriceData)
  cachedAccountId : Option String
deriving DecidableEq

/-- Result of a getFigiForTicker call: outcome, updated map, remote search calls. -/
structure FigiLookup where
  res : Except String String
  map : List (String × String)
  searchCalls : ℕ

/-- getFigiForTicker from part_000: answers from tickerFigiMap when present,
otherwise issues one FindInstrument call, selects the instrument whose ticker
matches, stores the mapping and returns the figi. A failed search stores nothing. -/
def getFigiForTicker (u : Upstream) (m : List (String × String)) (t : String) : FigiLookup :=
  match m.lookup t with
  | some figi => ⟨Except.ok figi, m, 0⟩
  | none =>
    match u.findInstrument t with
    | Except.error e => ⟨Except.error e, m, 1⟩
    | Except.ok instruments =>
      match instruments.find? (fun inst => inst.ticker == t) with
      | none => ⟨Except.error ("Instrument not found for ticker: " ++ t), m, 1⟩
      | some inst => ⟨Except.ok inst.figi, (t, inst.figi) :: m, 1⟩

/-- getFigiForTicker from part_001: same memoization, but the matching
instrument must also have instrumentType etf. -/
def getFigiForTicker001 (u : Upstream) (m : List (String × String)) (t : String) : FigiLookup :=
  match m.lookup t with
  | some figi => ⟨Except.ok figi, m, 0⟩
  | none =>
    match u.findInstrument t with
    | Except.error e => ⟨Except.error e, m, 1⟩
    | Except.ok instruments =>
      match instruments.find? (fun inst => inst.ticker == t && inst.instrumentType == ("etf")) with
      | none => ⟨Except.error ("FIGI not found for ticker: " ++ t), m, 1⟩
      | some inst => ⟨Except.ok inst.figi, (t, inst.figi) :: m, 1⟩

/-- Result of a getAccountId call: outcome, updated cache, remote calls issued. -/
structure AccountLookup where
  res : Except String String
  cached : Option String
  accountCalls : ℕ

/-- One GetAccounts call as in part_000: the first account wins; an empty
account list throws. -/
def fetchFirstAccount (u : Upstream) (cached : Option String) : AccountLookup :=
  match u.getAccounts with
  | Except.error e => ⟨Except.error e, cached, 1⟩
  | Except.ok [] => ⟨Except.error ("No accounts found"), cached, 1⟩
  | Except.ok (a :: _) => ⟨Except.ok a.id, some a.id, 1⟩

/-- getAccountId from part_000: `if (cachedAccountId) return cachedAccountId`
(truthiness: an empty-string id does not count as cached). -/
def getAccountId (u : Upstream) (cached : Option String) : AccountLookup :=
  match cached with
  | some id => if id == "" then fetchFirstAccount u (some id) else ⟨Except.ok id, some id, 0⟩
  | none => fetchFirstAccount u none

/-- One GetAccounts call as in part_001: picks the account whose type is the
Tinkoff or investment account type. -/
def fetchMainAccount (u : Upstream) (cached : Option String) : AccountLookup :=
  match u.getAccounts with
  | Except.error e => ⟨Except.error e, cached, 1⟩
  | Except.ok accounts =>
    match accounts.find? (fun a =>
        a.accountType == ("ACCOUNT_TYPE_TINKOFF") || a.accountType == ("ACCOUNT_TYPE_INVESTMENT")) with
    | none => ⟨Except.error ("No suitable investment account found."), cached, 1⟩
    | some a => ⟨Except.ok a.id, some a.id, 1⟩

/-- getAccountId from part_001: same memoization over fetchMainAccount. -/
def getAccountId001 (u : Upstream) (cached : Option String) : AccountLookup :=
  match cached with
  | some id => if id == "" then fetchMainAccount u (some id) else ⟨Except.ok id, some id, 0⟩
  | none => fetchMainAccount u none

/-- The main.js module cache: per-ticker price entries plus one global lastUpdate. -/
structure MainCache where
  prices : List (String × PriceData)
  lastUpdate : ℕ
deriving DecidableEq

/-- Result of a main.js getCurrentPrice call, with remote-call counters. -/
structure MainPriceResult where
  data : PriceData
  cache : MainCache
  searchCalls : ℕ
  priceCalls : ℕ
deriving DecidableEq

/-- The fallback object of the price paths: price 190 + Math.random() * 2,
flagged isMock; `rand` is the value Math.random() produced. -/
def mockPriceData (rand : ℚ) (now : ℕ) (t : String) : PriceData :=
  ⟨190 + rand * 2, none, t, now, true⟩

/-- The fetch path of main.js getCurrentPrice: FindInstrument (taking
instruments[0]), then GetOrderBook; any failure is caught and replaced by mock
data without touching the cache. -/
def mainFetch (u : Upstream) (rand : ℚ) (c : MainCache) (now : ℕ) (t : String) : MainPriceResult :=
  match u.findInstrument t with
  | Except.error _ => ⟨mockPriceData rand now t, c, 1, 0⟩
  | Except.ok [] => ⟨mockPriceData rand now t, c, 1, 0⟩
  | Except.ok (inst :: _) =>
    match u.getOrderBook inst.figi with
    | Except.error _ => ⟨mockPriceData rand now t, c, 1, 1⟩
    | Except.ok lastPrice =>
      let pd : PriceData := ⟨quotationToFloat lastPrice, some inst.figi, t, now, false⟩
      ⟨pd, ⟨(t, pd) :: c.prices, now⟩, 1, 1⟩

/-- getCurrentPrice from main.js: the freshness test is
`now - cache.lastUpdate < 5000 && cache.prices[ticker]` —
one global lastUpdate shared by all tickers. -/
def getCurrentPrice (u : Upstream) (rand : ℚ) (c : MainCache) (now : ℕ) (t : String) : MainPriceResult :=
  if now - c.lastUpdate < 5000 then
    match c.prices.lookup t with
    | some pd => ⟨pd, c, 0, 0⟩
    | none => mainFetch u rand c now t
  else mainFetch u rand c now t

/-- Response of the part_000 /api/price handler. -/
structure PriceHandlerResult where
  status : ℕ
  success : Bool
  data : PriceData
  state : ServerState
  searchCalls : ℕ
  priceCalls : ℕ
deriving DecidableEq

/-- `url.searchParams.get('ticker') || 'SBER'`: an absent or empty parameter
falls back to SBER. -/
def effectiveTicker : Option String → String
  | none => "SBER"
  | some t => if t == "" then "SBER" else t

/-- The fetch path of the part_000 /api/price handler: resolve the figi through
the memoized getFigiForTicker, then GetOrderBook; any failure yields mock data
with HTTP 200 and leaves the price cache untouched. -/
def fetchPrice000 (u : Upstream) (rand : ℚ) (st : ServerState) (now : ℕ) (t : String) : PriceHandlerResult :=
  match getFigiForTicker u st.tickerFigiMap t with
  | ⟨Except.error _, m, sc⟩ =>
    ⟨200, true, mockPriceData rand now t, { st with tickerFigiMap := m }, sc, 0⟩
  | ⟨Except.ok figi, m, sc⟩ =>
    match u.getOrderBook figi with
    | Except.error _ =>
      ⟨200, true, mockPriceData rand now t, { st with tickerFigiMap := m }, sc, 1⟩
    | Except.ok lastPrice =>
      let pd : PriceData := ⟨quotationToFloat lastPrice, some figi, t, now, false⟩
      ⟨200, true, pd, { st with tickerFigiMap := m, priceCache := (t, pd) :: st.priceCache }, sc, 1⟩

/-- The part_000 GET /api/price handler: per-ticker cache entry with per-entry
timestamp; a fresh entry is returned unchanged with no remote call. -/
def handlePrice000 (u : Upstream) (rand : ℚ) (st : ServerState) (now : ℕ)
    (tickerParam : Option String) : PriceHandlerResult :=
  match st.priceCache.lookup (effectiveTicker tickerParam) with
  | some pd =>
    if now - pd.timestamp < 5000 then ⟨200, true, pd, st, 0, 0⟩
    else fetchPrice000 u rand st now (effectiveTicker tickerParam)
  | none => fetchPrice000 u rand st now (effectiveTicker tickerParam)

/-- The cache entries of part_001: price and timestamp only. -/
structure Price001Data where
  price : ℚ
  timestamp : ℕ
deriving DecidableEq

/-- Response of the part_001 /api/price handler. -/
structure Price001Result where
  status : ℕ
  success : Bool
  data : Option Price001Data
  error : Option String
  figiMap : List (String × String)
  cache : List (String × Price001Data)
  searchCalls : ℕ
  priceCalls : ℕ
deriving DecidableEq

/-- The fetch path of the part_001 /api/price handler: on any upstream failure
it responds 500 with the error message — no mock fallback. -/
def fetchPrice001 (u : Upstream) (figiMap : List (String × String))
    (cache : List (String × Price001Data)) (now : ℕ) (t : String) : Price001Result :=
  match getFigiForTicker001 u figiMap t with
  | ⟨Except.error e, m, sc⟩ => ⟨500, false, none, some e, m, cache, sc, 0⟩
  | ⟨Except.ok figi, m, sc⟩ =>
    match u.getLastPrices figi with
    | Except.error e => ⟨500, false, none, some e, m, cache, sc, 1⟩
    | Except.ok [] => ⟨500, false, none, some ("No price data for " ++ t), m, cache, sc, 1⟩
    | Except.ok (q :: _) =>
      let pd : Price001Data := ⟨quotationToFloat q, now⟩
      ⟨200, true, some pd, none, m, (t, pd) :: cache, sc, 1⟩

/-- The part_001 GET /api/price handler: a missing or empty ticker parameter is
rejected with 400 before any cache or upstream access. -/
def handlePrice001 (u : Upstream) (figiMap : List (String × String))
    (cache : List (String × Price001Data)) (now : ℕ) (tickerParam : Option String) : Price001Result :=
  match tickerParam with
  | none => ⟨400, false, none, some ("Missing ticker parameter"), figiMap, cache, 0, 0⟩
  | some t =>
    if t == "" then ⟨400, false, none, some ("Missing ticker parameter"), figiMap, cache, 0, 0⟩
    else
      match cache.lookup t with
      | some pd =>
        if now - pd.timestamp < 5000 then ⟨200, true, some pd, none, figiMap, cache, 0, 0⟩
        else fetchPrice001 u figiMap cache now t
      | none => fetchPrice001 u figiMap cache now t

/-- JavaScript toLowerCase, character by character (ASCII suffices here). -/
def jsToLower (s : String) : String := String.mk (s.data.map Char.toLower)

/-- Direction mapping of part_000: lowercases, then anything other than buy is
a sell. -/
def part000OrderDirection (d : String) : String :=
  if jsToLower d == ("buy") then "ORDER_DIRECTION_BUY" else "ORDER_DIRECTION_SELL"

/-- Direction mapping of main.js and part_001: no lowercasing; anything other
than buy is a sell. -/
def mainOrderDirection (d : String) : String :=
  if d == ("buy") then "ORDER_DIRECTION_BUY" else "ORDER_DIRECTION_SELL"

/-- The parsed JSON body of a POST /api/order/limit request; `none` models a
missing field. -/
structure OrderBody where
  ticker : Option JSVal
  quantity : Option JSVal
  price : Option JSVal
  direction : Option JSVal
deriving DecidableEq

/-- Response of the part_000 POST /api/order/limit handler, with the payload
actually posted upstream (if any) and remote-call counters. -/
structure OrderHandlerResult where
  status : ℕ
  success : Bool
  error : Option String
  orderId : Option String
  orderStatus : Option String
  message : Option String
  state : ServerState
  posted : Option OrderPayload
  searchCalls : ℕ
  accountCalls : ℕ
  orderCalls : ℕ
deriving DecidableEq

/-- The 400 validation response of the order handler: state untouched, no
remote call of any kind. -/
def orderValidationError (st : ServerState) : OrderHandlerResult :=
  ⟨400, false, some ("Missing required fields: ticker, quantity, price, direction"),
    none, none, none, st, none, 0, 0, 0⟩

/-- The part_000 POST /api/order/limit handler. -/
def handleOrder (u : Upstream) (oid : String) (st : ServerState) (b : OrderBody) : OrderHandlerResult :=
  match b.ticker, b.quantity, b.price, b.direction with
  | some tv, some qv, some pv, some dv =>
    if truthy tv && truthy qv && truthy pv && truthy dv then
      match getFigiForTicker u st.tickerFigiMap (jsToString tv) with
      | ⟨Except.error e, m, sc⟩ =>
        ⟨500, false, some e, none, none, none, { st with tickerFigiMap := m }, none, sc, 0, 0⟩
      | ⟨Except.ok figi, m, sc⟩ =>
        match getAccountId u st.cachedAccountId with
        | ⟨Except.error e, ca, ac⟩ =>
          ⟨500, false, some e, none, none, none,
            { st with tickerFigiMap := m, cachedAccountId := ca }, none, sc, ac, 0⟩
        | ⟨Except.ok accId, ca, ac⟩ =>
          let payload : OrderPayload :=
            ⟨figi, jsParseInt qv, (jsParseFloat pv).map floatToQuotation,
              part000OrderDirection (jsToString dv), accId, "ORDER_TYPE_LIMIT", oid⟩
          match u.postOrder payload with
          | Except.error e =>
            ⟨500, false, some e, none, none, none,
              { st with tickerFigiMap := m, cachedAccountId := ca }, some payload, sc, ac, 1⟩
          | Except.ok resp =>
            ⟨200, true, none, some resp.orderId, some resp.executionReportStatus,
              some ("Order placed successfully"),
              { st with tickerFigiMap := m, cachedAccountId := ca }, some payload, sc, ac, 1⟩
    else orderValidationError st
  | _, _, _, _ => orderValidationError st

/-- Response of a GET /api/status handler. -/
structure StatusResult where
  status : ℕ
  success : Bool
  statusText : Option String
  error : Option String
  cached : Option String
  accountCalls : ℕ
deriving DecidableEq

/-- The part_000 GET /api/status handler: checks API availability through
getAccountId; a failure degrades the reported status to limited, never to an
error response. -/
def handleStatus000 (u : Upstream) (cached : Option String) : StatusResult :=
  match getAccountId u cached with
  | ⟨Except.ok _, ca, ac⟩ => ⟨200, true, some ("online"), none, ca, ac⟩
  | ⟨Except.error e, ca, ac⟩ => ⟨200, true, some ("limited"), some e, ca, ac⟩

/-- The main.js GET /api/status handler: no upstream check, always online. -/
def handleStatusMain : StatusResult :=
  ⟨200, true, some ("online"), none, none, 0⟩

/-- The part_001 GET /api/status handler: a failed account check becomes an
HTTP 500 error response. -/
def handleStatus001 (u : Upstream) (cached : Option String) : StatusResult :=
  match getAccountId001 u cached with
  | ⟨Except.ok _, ca, ac⟩ => ⟨200, true, some ("online"), none, ca, ac⟩
  | ⟨Except.error e, ca, ac⟩ => ⟨500, false, none, some e, ca, ac⟩

/-- A fully available upstream, used for concrete witnesses. -/
def demoUpstream : Upstream :=
  ⟨fun t => Except.ok [⟨t, "F-" ++ t, "etf"⟩],
    fun _ => Except.ok ⟨100, 0⟩,
    fun _ => Except.ok [⟨100, 0⟩],
    Except.ok [⟨"ACC1", "ACCOUNT_TYPE_TINKOFF"⟩],
    fun _ => Except.ok ⟨"OID1", "EXECUTION_REPORT_STATUS_NEW"⟩⟩

/-- A fully failing upstream, used for concrete witnesses and counterexamples. -/
def errUpstream : Upstream :=
  ⟨fun _ => Except.error ("Network error"),
    fun _ => Except.error ("Network error"),
    fun _ => Except.error ("Network error"),
    Except.error ("Network error"),
    fun _ => Except.error ("Network error")⟩

/-- The empty main.js cache at process start. -/
def mainCache0 : MainCache := ⟨[], 0⟩

/-- The empty part_000 state at process start. -/
def state0 : ServerState := ⟨[], [], none⟩

/-- A part_000 state where the SBER figi and the account id are already cached. -/
def stateCached : ServerState := ⟨[(("SBER"), ("F-SBER"))], [], some ("ACC1")⟩

end Frog

namespace Frog

theorem jsTrunc_sub_abs_lt_one (v : ℚ) : |v - (jsTrunc v : ℚ)| < 1 := by
  unfold jsTrunc
  split
  · rw [abs_lt]
    constructor
    · linarith [Int.floor_le v, Int.lt_floor_add_one v]
    · linarith [Int.floor_le v, Int.lt_floor_add_one v]
  · rw [abs_lt]
    constructor
    · linarith [Int.le_ceil v, Int.ceil_lt_add_one v]
    · linarith [Int.le_ceil v, Int.ceil_lt_add_one v]

/-- C3: for every value v, toFloat(toQuotation(v)) equals v to within an
absolute error of 1e-9, where toQuotation(v) = { units = truncate(v),
nano = round((v - units) * 1e9) } and toFloat(q) = q.units + q.nano / 1e9. -/
theorem quotation_roundtrip (v : ℚ) :
    |quotationToFloat (floatToQuotation v) - v| ≤ 1 / 1000000000 := by
  have h := abs_sub_round ((v - (jsTrunc v : ℚ)) * 1000000000)
  unfold quotationToFloat floatToQuotation
  simp only
  rw [show (jsTrunc v : ℚ) + (round ((v - (jsTrunc v : ℚ)) * 1000000000) : ℚ) / 1000000000 - v
      = -(((v - (jsTrunc v : ℚ)) * 1000000000 - (round ((v - (jsTrunc v : ℚ)) * 1000000000) : ℚ)) / 1000000000) by ring]
  rw [abs_neg, abs_div]
  rw [show |(1000000000 : ℚ)| = 1000000000 by norm_num]
  linarith [h]

/-- C4 counterexample: at v = 0.9999999999 the code produces nano = 1,000,000,000,
which lies outside the range -999,999,999..999,999,999 asserted by the claim. -/
theorem nano_range_counterexample :
    (floatToQuotation ((9999999999 : ℚ) / 10000000000)).nano = 1000000000 ∧
      ¬ (floatToQuotation ((9999999999 : ℚ) / 10000000000)).nano ≤ 999999999 := by
  have h : (floatToQuotation ((9999999999 : ℚ) / 10000000000)).nano = 1000000000 := by
    unfold floatToQuotation jsTrunc
    simp only
    rw [if_pos (by norm_num)]
    rw [show ⌊(9999999999 : ℚ) / 10000000000⌋ = 0 by
      rw [Int.floor_eq_iff]
      norm_num]
    rw [round_eq]
    rw [Int.floor_eq_iff]
    norm_num
  exact ⟨h, by rw [h]; norm_num⟩

/-- C4 (amended): for every v, the nano part of toQuotation(v) lies within
[-1,000,000,000, 1,000,000,000]; the magnitude can reach exactly 1e9 when the
fractional part of v rounds up to a full unit, but can never exceed it. -/
theorem nano_bounds (v : ℚ) :
    -1000000000 ≤ (floatToQuotation v).nano ∧ (floatToQuotation v).nano ≤ 1000000000 := by
  have hf := jsTrunc_sub_abs_lt_one v
  rw [abs_lt] at hf
  unfold floatToQuotation
  simp only
  rw [round_eq]
  constructor
  · have hmono : ⌊((-1000000000 : ℚ) + 1 / 2)⌋ ≤ ⌊(v - (jsTrunc v : ℚ)) * 1000000000 + 1 / 2⌋ := by
      apply Int.floor_le_floor
      nlinarith [hf.1]
    have hval : ⌊((-1000000000 : ℚ) + 1 / 2)⌋ = -1000000000 := by
      rw [Int.floor_eq_iff]
      norm_num
    omega
  · have hub : (⌊(v - (jsTrunc v : ℚ)) * 1000000000 + 1 / 2⌋ : ℚ) < 1000000001 := by
      have := Int.floor_le ((v - (jsTrunc v : ℚ)) * 1000000000 + 1 / 2)
      nlinarith [hf.2]
    have : ⌊(v - (jsTrunc v : ℚ)) * 1000000000 + 1 / 2⌋ < (1000000001 : ℤ) := by
      exact_mod_cast hub
    omega

theorem lookup_cons_self {β : Type} (t : String) (v : β) (l : List (String × β)) :
    List.lookup t ((t, v) :: l) = some v := by
  simp [List.lookup]

/-- C2: the first resolveTicker call for a ticker queries the remote search
endpoint, selects the matching instrument, stores the ticker-to-figi mapping
and returns the figi; every later call for that ticker answers from the stored
mapping and issues no remote call, so two successive calls issue exactly one
remote search call. Both getFigiForTicker variants behave this way. -/
theorem resolveTicker_memoized (u : Upstream) (m m2 : List (String × String))
    (t figi : String) (insts : List Instrument) (inst inst1 : Instrument)
    (hmiss : m.lookup t = none)
    (hsearch : u.findInstrument t = Except.ok insts)
    (hfind : insts.find? (fun i => i.ticker == t) = some inst)
    (hfind1 : insts.find? (fun i => i.ticker == t && i.instrumentType == ("etf")) = some inst1)
    (hcached : m2.lookup t = some figi) :
    getFigiForTicker u m t = ⟨Except.ok inst.figi, (t, inst.figi) :: m, 1⟩ ∧
    (getFigiForTicker u m t).map.lookup t = some inst.figi ∧
    getFigiForTicker u (getFigiForTicker u m t).map t
      = ⟨Except.ok inst.figi, (t, inst.figi) :: m, 0⟩ ∧
    (getFigiForTicker u m t).searchCalls
      + (getFigiForTicker u (getFigiForTicker u m t).map t).searchCalls = 1 ∧
    getFigiForTicker u m2 t = ⟨Except.ok figi, m2, 0⟩ ∧
    getFigiForTicker001 u m t = ⟨Except.ok inst1.figi, (t, inst1.figi) :: m, 1⟩ ∧
    getFigiForTicker001 u ((t, inst1.figi) :: m) t
      = ⟨Except.ok inst1.figi, (t, inst1.figi) :: m, 0⟩ := by
  have h1 : getFigiForTicker u m t = ⟨Except.ok inst.figi, (t, inst.figi) :: m, 1⟩ := by
    simp [getFigiForTicker, hmiss, hsearch, hfind]
  have h2 : getFigiForTicker u ((t, inst.figi) :: m) t
      = ⟨Except.ok inst.figi, (t, inst.figi) :: m, 0⟩ := by
    simp [getFigiForTicker, lookup_cons_self]
  have h5 : getFigiForTicker u m2 t = ⟨Except.ok figi, m2, 0⟩ := by
    simp [getFigiForTicker, hcached]
  have h6 : getFigiForTicker001 u m t = ⟨Except.ok inst1.figi, (t, inst1.figi) :: m, 1⟩ := by
    simp [getFigiForTicker001, hmiss, hsearch, hfind1]
  have h7 : getFigiForTicker001 u ((t, inst1.figi) :: m) t
      = ⟨Except.ok inst1.figi, (t, inst1.figi) :: m, 0⟩ := by
    simp [getFigiForTicker001, lookup_cons_self]
  refine ⟨h1, ?_, ?_, ?_, h5, h6, h7⟩
  · rw [h1]
    exact lookup_cons_self t inst.figi m
  · rw [h1]
    exact h2
  · rw [h1]
    simp only
    rw [h2]
    rfl

/-- C2 witness: a concrete run against the demo upstream. -/
theorem resolveTicker_memoized_witness :
    getFigiForTicker demoUpstream [] ("SBER")
      = ⟨Except.ok ("F-SBER"), [(("SBER"), ("F-SBER"))], 1⟩ ∧
    getFigiForTicker demoUpstream [(("SBER"), ("F-SBER"))] ("SBER")
      = ⟨Except.ok ("F-SBER"), [(("SBER"), ("F-SBER"))], 0⟩ := by
  have h := resolveTicker_memoized demoUpstream [] [(("SBER"), ("F-SBER"))]
    ("SBER") ("F-SBER") [⟨("SBER"), ("F-SBER"), ("etf")⟩]
    ⟨("SBER"), ("F-SBER"), ("etf")⟩ ⟨("SBER"), ("F-SBER"), ("etf")⟩
    rfl rfl rfl rfl rfl
  exact ⟨h.1, h.2.2.1⟩

/-- C5: a POST /api/order/limit request lacking any of the four fields gets
HTTP 400, the caches are untouched and no remote call of any kind is issued. -/
theorem order_missing_field_400 (u : Upstream) (oid : String) (st : ServerState) (b : OrderBody)
    (h : b.ticker = none ∨ b.quantity = none ∨ b.price = none ∨ b.direction = none) :
    handleOrder u oid st b = orderValidationError st ∧
    (handleOrder u oid st b).status = 400 ∧
    (handleOrder u oid st b).state = st ∧
    (handleOrder u oid st b).searchCalls = 0 ∧
    (handleOrder u oid st b).accountCalls = 0 ∧
    (handleOrder u oid st b).orderCalls = 0 ∧
    (handleOrder u oid st b).posted = none := by
  obtain ⟨bt, bq, bp, bd⟩ := b
  have hr : handleOrder u oid st ⟨bt, bq, bp, bd⟩ = orderValidationError st := by
    cases bt <;> cases bq <;> cases bp <;> cases bd <;> simp_all [handleOrder]
  rw [hr]
  exact ⟨rfl, rfl, rfl, rfl, rfl, rfl, rfl⟩

/-- C5 witness: a body missing the price field. -/
theorem order_missing_field_400_witness :
    (handleOrder demoUpstream ("OID") state0
      ⟨some (JSVal.vStr ("SBER")), some (JSVal.vNum 1), none, some (JSVal.vStr ("buy"))⟩).status
      = 400 ∧
    (handleOrder demoUpstream ("OID") state0
      ⟨some (JSVal.vStr ("SBER")), some (JSVal.vNum 1), none, some (JSVal.vStr ("buy"))⟩).orderCalls
      = 0 := by
  have h := order_missing_field_400 demoUpstream ("OID") state0
    ⟨some (JSVal.vStr ("SBER")), some (JSVal.vNum 1), none, some (JSVal.vStr ("buy"))⟩
    (Or.inr (Or.inr (Or.inl rfl)))
  exact ⟨h.2.1, h.2.2.2.2.2.1⟩

theorem truthy_num_zero : truthy (JSVal.vNum 0) = false := by decide

theorem truthy_str_empty : truthy (JSVal.vStr ("")) = false := by decide

/-- C9: an order body with all four fields present but a zero quantity, a zero
price or an empty ticker is rejected with 400 exactly as if the field were
missing — the truthiness presence check — so a zero quantity or price can
never reach the upstream order call. -/
theorem order_zero_field_400 (u : Upstream) (oid : String) (st : ServerState) (b : OrderBody)
    (hpt : b.ticker.isSome) (hpq : b.quantity.isSome)
    (hpp : b.price.isSome) (hpd : b.direction.isSome)
    (h : b.quantity = some (JSVal.vNum 0) ∨ b.price = some (JSVal.vNum 0) ∨
      b.ticker = some (JSVal.vStr (""))) :
    (handleOrder u oid st b).status = 400 ∧
    (handleOrder u oid st b).orderCalls = 0 ∧
    (handleOrder u oid st b).posted = none ∧
    handleOrder u oid st b = orderValidationError st ∧
    handleOrder u oid st b = handleOrder u oid st ⟨none, none, none, none⟩ := by
  obtain ⟨bt, bq, bp, bd⟩ := b
  have hr : handleOrder u oid st ⟨bt, bq, bp, bd⟩ = orderValidationError st := by
    rcases h with h | h | h
    · subst h
      cases bt <;> cases bp <;> cases bd <;> simp_all [handleOrder, truthy_num_zero]
    · subst h
      cases bt <;> cases bq <;> cases bd <;> simp_all [handleOrder, truthy_num_zero]
    · subst h
      cases bq <;> cases bp <;> cases bd <;> simp_all [handleOrder, truthy_str_empty]
  rw [hr]
  exact ⟨rfl, rfl, rfl, rfl, rfl⟩

/-- C9 witness: a body whose quantity is 0. -/
theorem order_zero_field_400_witness :
    (handleOrder demoUpstream ("OID") state0
      ⟨some (JSVal.vStr ("SBER")), some (JSVal.vNum 0), some (JSVal.vNum 250),
        some (JSVal.vStr ("buy"))⟩).status = 400 ∧
    (handleOrder demoUpstream ("OID") state0
      ⟨some (JSVal.vStr ("SBER")), some (JSVal.vNum 0), some (JSVal.vNum 250),
        some (JSVal.vStr ("buy"))⟩).posted = none := by
  have h := order_zero_field_400 demoUpstream ("OID") state0
    ⟨some (JSVal.vStr ("SBER")), some (JSVal.vNum 0), some (JSVal.vNum 250),
      some (JSVal.vStr ("buy"))⟩
    rfl rfl rfl rfl (Or.inl rfl)
  exact ⟨h.1, h.2.2.1⟩

/-- C7: a POST /api/order/limit request that passes field validation but whose
upstream order call fails is answered with HTTP 500, success false and the
non-empty upstream error message; no fallback payload is substituted. -/
theorem order_upstream_error_500 (u : Upstream) (oid : String) (st : ServerState)
    (ts d figi aid e : String) (qq pp : ℚ)
    (hts : ts ≠ "") (hqq : qq ≠ 0) (hpp : pp ≠ 0) (hd : d ≠ "")
    (hfigi : st.tickerFigiMap.lookup ts = some figi)
    (hacct : st.cachedAccountId = some aid) (haid : aid ≠ "")
    (hpost : u.postOrder ⟨figi, some (jsTrunc qq), some (floatToQuotation pp),
        part000OrderDirection d, aid, ("ORDER_TYPE_LIMIT"), oid⟩ = Except.error e)
    (he : e ≠ "") :
    (handleOrder u oid st ⟨some (JSVal.vStr ts), some (JSVal.vNum qq),
        some (JSVal.vNum pp), some (JSVal.vStr d)⟩).status = 500 ∧
    (handleOrder u oid st ⟨some (JSVal.vStr ts), some (JSVal.vNum qq),
        some (JSVal.vNum pp), some (JSVal.vStr d)⟩).success = false ∧
    (handleOrder u oid st ⟨some (JSVal.vStr ts), some (JSVal.vNum qq),
        some (JSVal.vNum pp), some (JSVal.vStr d)⟩).error = some e ∧
    e ≠ "" ∧
    (handleOrder u oid st ⟨some (JSVal.vStr ts), some (JSVal.vNum qq),
        some (JSVal.vNum pp), some (JSVal.vStr d)⟩).orderId = none ∧
    (handleOrder u oid st ⟨some (JSVal.vStr ts), some (JSVal.vNum qq),
        some (JSVal.vNum pp), some (JSVal.vStr d)⟩).orderStatus = none ∧
    (handleOrder u oid st ⟨some (JSVal.vStr ts), some (JSVal.vNum qq),
        some (JSVal.vNum pp), some (JSVal.vStr d)⟩).message = none ∧
    (handleOrder u oid st ⟨some (JSVal.vStr ts), some (JSVal.vNum qq),
        some (JSVal.vNum pp), some (JSVal.vStr d)⟩).orderCalls = 1 := by
  have h1 : truthy (JSVal.vStr ts) = true := decide_eq_true hts
  have h2 : truthy (JSVal.vNum qq) = true := decide_eq_true hqq
  have h3 : truthy (JSVal.vNum pp) = true := decide_eq_true hpp
  have h4 : truthy (JSVal.vStr d) = true := decide_eq_true hd
  refine ⟨?_, ?_, ?_, he, ?_, ?_, ?_, ?_⟩ <;>
    simp [handleOrder, h1, h2, h3, h4, getFigiForTicker, jsToString, hfigi, hacct,
      getAccountId, haid, jsParseInt, jsParseFloat, hpost]

/-- C7 witness: a valid order body against a failing upstream. -/
theorem order_upstream_error_500_witness :
    (handleOrder errUpstream ("OID") stateCached
      ⟨some (JSVal.vStr ("SBER")), some (JSVal.vNum 1), some (JSVal.vNum 250),
        some (JSVal.vStr ("buy"))⟩).status = 500 ∧
    (handleOrder errUpstream ("OID") stateCached
      ⟨some (JSVal.vStr ("SBER")), some (JSVal.vNum 1), some (JSVal.vNum 250),
        some (JSVal.vStr ("buy"))⟩).error = some ("Network error") := by
  have h := order_upstream_error_500 errUpstream ("OID") stateCached
    ("SBER") ("buy") ("F-SBER") ("ACC1") ("Network error") 1 250
    (by decide) (by decide) (by decide) (by decide) rfl rfl (by decide) rfl (by decide)
  exact ⟨h.1, h.2.2.1⟩

/-- C10: a direction field other than buy (after lowercasing in the variant
that lowercases) is never rejected — it is submitted upstream as a SELL order
in every variant. -/
theorem order_direction_never_validated (u : Upstream) (oid : String) (st : ServerState)
    (ts d d2 figi aid : String) (qq pp : ℚ)
    (hts : ts ≠ "") (hqq : qq ≠ 0) (hpp : pp ≠ 0) (hdne : d ≠ "")
    (hd : jsToLower d ≠ ("buy")) (hd2 : d2 ≠ ("buy"))
    (hfigi : st.tickerFigiMap.lookup ts = some figi)
    (hacct : st.cachedAccountId = some aid) (haid : aid ≠ "") :
    part000OrderDirection d = ("ORDER_DIRECTION_SELL") ∧
    mainOrderDirection d2 = ("ORDER_DIRECTION_SELL") ∧
    (handleOrder u oid st ⟨some (JSVal.vStr ts), some (JSVal.vNum qq),
        some (JSVal.vNum pp), some (JSVal.vStr d)⟩).posted
      = some ⟨figi, some (jsTrunc qq), some (floatToQuotation pp),
          ("ORDER_DIRECTION_SELL"), aid, ("ORDER_TYPE_LIMIT"), oid⟩ ∧
    (handleOrder u oid st ⟨some (JSVal.vStr ts), some (JSVal.vNum qq),
        some (JSVal.vNum pp), some (JSVal.vStr d)⟩).status ≠ 400 := by
  have hsell : part000OrderDirection d = ("ORDER_DIRECTION_SELL") := by
    simp [part000OrderDirection, hd]
  have hsell2 : mainOrderDirection d2 = ("ORDER_DIRECTION_SELL") := by
    simp [mainOrderDirection, hd2]
  have h1 : truthy (JSVal.vStr ts) = true := decide_eq_true hts
  have h2 : truthy (JSVal.vNum qq) = true := decide_eq_true hqq
  have h3 : truthy (JSVal.vNum pp) = true := decide_eq_true hpp
  have h4 : truthy (JSVal.vStr d) = true := decide_eq_true hdne
  refine ⟨hsell, hsell2, ?_, ?_⟩ <;>
    cases hpost : u.postOrder ⟨figi, some (jsTrunc qq), some (floatToQuotation pp),
        ("ORDER_DIRECTION_SELL"), aid, ("ORDER_TYPE_LIMIT"), oid⟩ <;>
      simp [handleOrder, h1, h2, h3, h4, getFigiForTicker, jsToString, hfigi, hacct,
        getAccountId, haid, jsParseInt, jsParseFloat, hsell, hpost]

/-- C10 witness: a misspelled direction selll (and, in the variant without
lowercasing, the uppercase SELL) maps to a SELL order. -/
theorem order_direction_never_validated_witness :
    mainOrderDirection ("SELL") = ("ORDER_DIRECTION_SELL") ∧
    (handleOrder demoUpstream ("OID") stateCached
      ⟨some (JSVal.vStr ("SBER")), some (JSVal.vNum 1), some (JSVal.vNum 250),
        some (JSVal.vStr ("selll"))⟩).posted
      = some ⟨("F-SBER"), some (jsTrunc 1), some (floatToQuotation 250),
          ("ORDER_DIRECTION_SELL"), ("ACC1"), ("ORDER_TYPE_LIMIT"), ("OID")⟩ := by
  have h := order_direction_never_validated demoUpstream ("OID") stateCached
    ("SBER") ("selll") ("SELL") ("F-SBER") ("ACC1") 1 250
    (by decide) (by decide) (by decide) (by decide) (by decide) (by decide)
    rfl rfl (by decide)
  exact ⟨h.2.1, h.2.2.1⟩

/-- C8 (amended): the part_000 /api/status handler always answers 200 with
success true, reporting limited when the account check fails and online when
it succeeds; the main.js variant performs no upstream check and always reports
online; the part_001 variant, by contrast, answers 500 on a failed account
check (see the counterexample). -/
theorem status_never_errors (u u2 u3 : Upstream) (cached cached2 cached3 : Option String)
    (e a : String)
    (hfail : (getAccountId u cached).res = Except.error e)
    (hok : (getAccountId u2 cached2).res = Except.ok a) :
    (handleStatus000 u3 cached3).status = 200 ∧
    (handleStatus000 u3 cached3).success = true ∧
    (handleStatus000 u cached).statusText = some ("limited") ∧
    (handleStatus000 u2 cached2).statusText = some ("online") ∧
    handleStatusMain.status = 200 ∧
    handleStatusMain.success = true ∧
    handleStatusMain.statusText = some ("online") := by
  have g3 : (handleStatus000 u3 cached3).status = 200 ∧ (handleStatus000 u3 cached3).success = true := by
    rcases hg : getAccountId u3 cached3 with ⟨res, ca, ac⟩
    cases res <;> simp [handleStatus000, hg]
  have hlim : (handleStatus000 u cached).statusText = some ("limited") := by
    rcases hg : getAccountId u cached with ⟨res, ca, ac⟩
    rw [hg] at hfail
    change res = Except.error e at hfail
    subst hfail
    simp [handleStatus000, hg]
  have honl : (handleStatus000 u2 cached2).statusText = some ("online") := by
    rcases hg : getAccountId u2 cached2 with ⟨res, ca, ac⟩
    rw [hg] at hok
    change res = Except.ok a at hok
    subst hok
    simp [handleStatus000, hg]
  exact ⟨g3.1, g3.2, hlim, honl, rfl, rfl, rfl⟩

/-- C8 witness: a failing upstream degrades part_000 to limited, a healthy one
reports online. -/
theorem status_never_errors_witness :
    (handleStatus000 errUpstream none).statusText = some ("limited") ∧
    (handleStatus000 demoUpstream (some ("ACC1"))).statusText = some ("online") := by
  have h := status_never_errors errUpstream demoUpstream demoUpstream
    none (some ("ACC1")) none ("Network error") ("ACC1") rfl rfl
  exact ⟨h.2.2.1, h.2.2.2.1⟩

/-- C8 counterexample: in the part_001 variant a failed account check yields
HTTP 500 with success false — not the claimed 200/limited degradation. -/
theorem status001_counterexample :
    (handleStatus001 errUpstream none).status = 500 ∧
    (handleStatus001 errUpstream none).success = false := by
  exact ⟨rfl, rfl⟩

/-- C6 (amended): in the Deno variants (the part_000 handler and main.js
getCurrentPrice) an upstream failure with no fresh cache entry yields an HTTP
200 response flagged isMock with a price in [190, 192]; the part_001 variant
instead answers 500 with success false (see the counterexample). -/
theorem price_upstream_failure_mock (u : Upstream) (rand : ℚ) (st : ServerState)
    (now now5 : ℕ) (t e : String) (c : MainCache)
    (ht : t ≠ "")
    (hlook : st.priceCache.lookup t = none)
    (hfigimiss : st.tickerFigiMap.lookup t = none)
    (hsearch : u.findInstrument t = Except.error e)
    (hlookm : c.prices.lookup t = none)
    (hr0 : 0 ≤ rand) (hr1 : rand < 1) :
    (handlePrice000 u rand st now (some t)).status = 200 ∧
    (handlePrice000 u rand st now (some t)).success = true ∧
    (handlePrice000 u rand st now (some t)).data.isMock = true ∧
    190 ≤ (handlePrice000 u rand st now (some t)).data.price ∧
    (handlePrice000 u rand st now (some t)).data.price ≤ 192 ∧
    (getCurrentPrice u rand c now5 t).data.isMock = true ∧
    190 ≤ (getCurrentPrice u rand c now5 t).data.price ∧
    (getCurrentPrice u rand c now5 t).data.price ≤ 192 := by
  have hefft : effectiveTicker (some t) = t := by simp [effectiveTicker, ht]
  have h0 : handlePrice000 u rand st now (some t) = fetchPrice000 u rand st now t := by
    simp only [handlePrice000, hefft, hlook]
  have hf : fetchPrice000 u rand st now t
      = ⟨200, true, mockPriceData rand now t, st, 1, 0⟩ := by
    simp only [fetchPrice000, getFigiForTicker, hfigimiss, hsearch]
  have hm : getCurrentPrice u rand c now5 t = mainFetch u rand c now5 t := by
    rw [getCurrentPrice]
    split
    · rw [hlookm]
    · rfl
  have hmf : mainFetch u rand c now5 t = ⟨mockPriceData rand now5 t, c, 1, 0⟩ := by
    simp only [mainFetch, hsearch]
  refine ⟨?_, ?_, ?_, ?_, ?_, ?_, ?_, ?_⟩
  · rw [h0, hf]
  · rw [h0, hf]
  · rw [h0, hf]
    simp [mockPriceData]
  · rw [h0, hf]
    show (190 : ℚ) ≤ 190 + rand * 2
    linarith
  · rw [h0, hf]
    show (190 : ℚ) + rand * 2 ≤ 192
    linarith
  · rw [hm, hmf]
    simp [mockPriceData]
  · rw [hm, hmf]
    show (190 : ℚ) ≤ 190 + rand * 2
    linarith
  · rw [hm, hmf]
    show (190 : ℚ) + rand * 2 ≤ 192
    linarith

/-- C6 witness: a failing upstream with Math.random() = 1/2 yields a 200 mock
response with price 191 in both Deno variants. -/
theorem price_upstream_failure_mock_witness :
    (handlePrice000 errUpstream (1 / 2) state0 0 (some ("SBER"))).status = 200 ∧
    (handlePrice000 errUpstream (1 / 2) state0 0 (some ("SBER"))).data.isMock = true ∧
    190 ≤ (handlePrice000 errUpstream (1 / 2) state0 0 (some ("SBER"))).data.price ∧
    (getCurrentPrice errUpstream (1 / 2) mainCache0 0 ("SBER")).data.isMock = true := by
  have h := price_upstream_failure_mock errUpstream (1 / 2) state0 0 0
    ("SBER") ("Network error") mainCache0
    (by decide) rfl rfl rfl rfl (by norm_num) (by norm_num)
  exact ⟨h.1, h.2.2.1, h.2.2.2.1, h.2.2.2.2.2.1⟩

/-- C6 counterexample: in the part_001 variant an upstream failure on
/api/price yields HTTP 500 with success false and no price at all — not the
claimed 200 response with isMock true. -/
theorem price001_counterexample :
    (handlePrice001 errUpstream [] [] 0 (some ("SBER"))).status = 500 ∧
    (handlePrice001 errUpstream [] [] 0 (some ("SBER"))).success = false ∧
    (handlePrice001 errUpstream [] [] 0 (some ("SBER"))).data = none := by
  exact ⟨rfl, rfl, rfl⟩

/-- C1 (amended): for the part_000 /api/price handler the claim holds as
stated: a second call within 5000 ms of a first fetch returns the cached entry
with no remote price call (so two calls issue exactly one), a call after the
TTL has elapsed performs a second remote price call (reusing the memoized figi,
so no second search), and whether a cached entry is a hit depends only on the
entry stored for that ticker. In main.js, getCurrentPrice issues exactly one
remote price call for two calls within the TTL, but its freshness test
compares against the single global cache.lastUpdate shared by all tickers, so
after a ticker's TTL has elapsed a second remote call is issued only when the
global timestamp is also stale — a recent fetch of another ticker makes the
stale entry a hit (see the counterexample). -/
theorem price_cache_ttl (u : Upstream) (rand : ℚ) (st st4 : ServerState)
    (t : String) (inst instM : Instrument) (rest : List Instrument)
    (lp0 lpM : Quotation) (now1 now2 now3 now4 now5 nm1 nm2 : ℕ)
    (pd pd2 : PriceData) (c cm : MainCache)
    (ht : t ≠ "")
    (hmiss : st.priceCache.lookup t = none)
    (hfigimiss : st.tickerFigiMap.lookup t = none)
    (hsearch : u.findInstrument t = Except.ok (inst :: rest))
    (hfind : (inst :: rest).find? (fun i => i.ticker == t) = some instM)
    (hob0 : u.getOrderBook instM.figi = Except.ok lp0)
    (hobM : u.getOrderBook inst.figi = Except.ok lpM)
    (hlt : now2 - now1 < 5000)
    (hge : 5000 ≤ now3 - now1)
    (hlook4 : st4.priceCache.lookup t = some pd)
    (hlookc : c.prices.lookup t = some pd2)
    (hmlook : cm.prices.lookup t = none)
    (hmlt : nm2 - nm1 < 5000) :
    (handlePrice000 u rand st now1 (some t)).priceCalls = 1 ∧
    handlePrice000 u rand (handlePrice000 u rand st now1 (some t)).state now2 (some t)
      = ⟨200, true, (handlePrice000 u rand st now1 (some t)).data,
          (handlePrice000 u rand st now1 (some t)).state, 0, 0⟩ ∧
    (handlePrice000 u rand (handlePrice000 u rand st now1 (some t)).state now3 (some t)).priceCalls = 1 ∧
    (handlePrice000 u rand (handlePrice000 u rand st now1 (some t)).state now3 (some t)).searchCalls = 0 ∧
    (handlePrice000 u rand (handlePrice000 u rand st now1 (some t)).state now3 (some t)).data.timestamp = now3 ∧
    handlePrice000 u rand st4 now4 (some t)
      = (if now4 - pd.timestamp < 5000 then ⟨200, true, pd, st4, 0, 0⟩
          else fetchPrice000 u rand st4 now4 t) ∧
    getCurrentPrice u rand c now5 t
      = (if now5 - c.lastUpdate < 5000 then ⟨pd2, c, 0, 0⟩
          else mainFetch u rand c now5 t) ∧
    (getCurrentPrice u rand cm nm1 t).priceCalls = 1 ∧
    getCurrentPrice u rand (getCurrentPrice u rand cm nm1 t).cache nm2 t
      = ⟨(getCurrentPrice u rand cm nm1 t).data,
          (getCurrentPrice u rand cm nm1 t).cache, 0, 0⟩ := by
  have hefft : effectiveTicker (some t) = t := by simp [effectiveTicker, ht]
  have hA : handlePrice000 u rand st now1 (some t)
      = ⟨200, true, ⟨quotationToFloat lp0, some instM.figi, t, now1, false⟩,
          ⟨(t, instM.figi) :: st.tickerFigiMap,
            (t, ⟨quotationToFloat lp0, some instM.figi, t, now1, false⟩) :: st.priceCache,
            st.cachedAccountId⟩, 1, 1⟩ := by
    simp only [handlePrice000, hefft, hmiss]
    simp only [fetchPrice000, getFigiForTicker, hfigimiss, hsearch, hfind, hob0]
  have hnlt3 : ¬ (now3 - now1 < 5000) := by omega
  have hB : handlePrice000 u rand (handlePrice000 u rand st now1 (some t)).state now3 (some t)
      = ⟨200, true, ⟨quotationToFloat lp0, some instM.figi, t, now3, false⟩,
          ⟨(t, instM.figi) :: st.tickerFigiMap,
            (t, ⟨quotationToFloat lp0, some instM.figi, t, now3, false⟩)
              :: (t, ⟨quotationToFloat lp0, some instM.figi, t, now1, false⟩) :: st.priceCache,
            st.cachedAccountId⟩, 0, 1⟩ := by
    rw [hA]
    simp only [handlePrice000, hefft, lookup_cons_self, hnlt3, if_false]
    simp only [fetchPrice000, getFigiForTicker, lookup_cons_self, hob0]
  refine ⟨?_, ?_, ?_, ?_, ?_, ?_, ?_, ?_, ?_⟩
  · rw [hA]
  · rw [hA]
    simp only [handlePrice000, hefft, lookup_cons_self]
    simp only [hlt, if_true]
  · rw [hB]
  · rw [hB]
  · rw [hB]
  · simp only [handlePrice000, hefft, hlook4]
  · simp only [getCurrentPrice, hlookc]
  · have hm1 : getCurrentPrice u rand cm nm1 t = mainFetch u rand cm nm1 t := by
      rw [getCurrentPrice]
      split
      · rw [hmlook]
      · rfl
    rw [hm1]
    simp only [mainFetch, hsearch, hobM]
  · have hm1 : getCurrentPrice u rand cm nm1 t = mainFetch u rand cm nm1 t := by
      rw [getCurrentPrice]
      split
      · rw [hmlook]
      · rfl
    have hMF : mainFetch u rand cm nm1 t
        = ⟨⟨quotationToFloat lpM, some inst.figi, t, nm1, false⟩,
            ⟨(t, ⟨quotationToFloat lpM, some inst.figi, t, nm1, false⟩) :: cm.prices, nm1⟩,
            1, 1⟩ := by
      simp only [mainFetch, hsearch, hobM]
    rw [hm1, hMF]
    simp only [getCurrentPrice, hmlt, if_true, lookup_cons_self]

/-- C1 witness: a concrete SBER run against the demo upstream: the first call
fetches, the call 1000 ms later is a pure cache hit, the call 9000 ms later
fetches again. -/
theorem price_cache_ttl_witness :
    (handlePrice000 demoUpstream 0 state0 0 (some ("SBER"))).priceCalls = 1 ∧
    handlePrice000 demoUpstream 0 (handlePrice000 demoUpstream 0 state0 0 (some ("SBER"))).state
        1000 (some ("SBER"))
      = ⟨200, true, (handlePrice000 demoUpstream 0 state0 0 (some ("SBER"))).data,
          (handlePrice000 demoUpstream 0 state0 0 (some ("SBER"))).state, 0, 0⟩ ∧
    (handlePrice000 demoUpstream 0 (handlePrice000 demoUpstream 0 state0 0 (some ("SBER"))).state
        9000 (some ("SBER"))).priceCalls = 1 := by
  have h := price_cache_ttl demoUpstream 0 state0
    ⟨[], [(("SBER"), ⟨100, some ("F-SBER"), ("SBER"), 0, false⟩)], none⟩
    ("SBER") ⟨("SBER"), ("F-SBER"), ("etf")⟩ ⟨("SBER"), ("F-SBER"), ("etf")⟩ []
    ⟨100, 0⟩ ⟨100, 0⟩ 0 1000 9000 1 2 0 1000
    ⟨100, some ("F-SBER"), ("SBER"), 0, false⟩ ⟨100, some ("F-SBER"), ("SBER"), 0, false⟩
    ⟨[(("SBER"), ⟨100, some ("F-SBER"), ("SBER"), 0, false⟩)], 0⟩ mainCache0
    (by decide) rfl rfl rfl rfl rfl rfl (by decide) (by decide) rfl rfl rfl (by decide)
  exact ⟨h.1, h.2.1, h.2.2.1⟩

/-- C1 counterexample: with the main.js global lastUpdate, a GAZP fetch at
t=4000 makes the SBER entry fetched at t=0 count as fresh at t=8000: the third
call issues no remote call and returns the 8000 ms old entry, although the
claim requires a fresh remote price call once the 5000 ms TTL has elapsed. -/
theorem price_cache_ttl_counterexample :
    (getCurrentPrice demoUpstream 0 (getCurrentPrice demoUpstream 0
        (getCurrentPrice demoUpstream 0 mainCache0 0 ("SBER")).cache 4000 ("GAZP")).cache
      8000 ("SBER")).priceCalls = 0 ∧
    (getCurrentPrice demoUpstream 0 (getCurrentPrice demoUpstream 0
        (getCurrentPrice demoUpstream 0 mainCache0 0 ("SBER")).cache 4000 ("GAZP")).cache
      8000 ("SBER")).searchCalls = 0 ∧
    (getCurrentPrice demoUpstream 0 (getCurrentPrice demoUpstream 0
        (getCurrentPrice demoUpstream 0 mainCache0 0 ("SBER")).cache 4000 ("GAZP")).cache
      8000 ("SBER")).data.timestamp = 0 := by
  exact ⟨rfl, rfl, rfl⟩

end Frog
